import Mathlib

/-!
Shallow embedding of the ssh_mcp_server package (config.py, state.py,
ssh_session.py, tmux_wrapper.py, tools/execution.py, tools/terminal.py,
tools/list_configs.py).  File-system and subprocess effects are modelled
explicitly: the durable state file is a `Snapshot` value, the tmux process
namespace is a list of live session names, and each fallible external call
is driven by a boolean failure oracle.  Machine-level details (JSON byte
encoding, OS errno values) are abstracted; the control flow, mutation
order and error branches follow the Python source line by line.
-/

/-- Python truthiness of an optional string: `None` and the empty string
are falsy.  Used for `created_at or default` in `SessionState.__init__`. -/
def pyOr (v : Option String) (dflt : String) : String :=
  match v with
  | some c => if c = "" then dflt else c
  | none => dflt

/-- Dictionary lookup on an insertion-ordered association list, the model
of a Python `dict` with string keys (`d.get(k)` / `k in d`). -/
def dictFind (k : String) : List (String × α) → Option α
  | [] => none
  | (k2, v) :: rest => if k2 = k then some v else dictFind k rest

/-- Model of `del d[k]` on an insertion-ordered dict (keys are unique, so
removing every pair with the key equals removing the single entry). -/
def dictErase (k : String) : List (String × α) → List (String × α)
  | [] => []
  | (k2, v) :: rest => if k2 = k then dictErase k rest else (k2, v) :: dictErase k rest

/-- state.py `SessionState`: one session record, `created_at` always set
by the constructor. -/
structure SessionState where
  session_name : String
  connection_config : String
  tmux_session : String
  log_file : String
  created_at : String
deriving DecidableEq

/-- state.py `SessionState.__init__`: `created_at or now` keeps a truthy
given timestamp, else stamps the current clock `now`. -/
def mkSessionState (now session_name connection_config tmux_session log_file : String)
    (created_at : Option String) : SessionState :=
  { session_name := session_name, connection_config := connection_config,
    tmux_session := tmux_session, log_file := log_file,
    created_at := pyOr created_at now }

/-- JSON object written for one session by `SessionState.to_dict`
(`created_at` is optional on the reading side: `data.get`). -/
structure SessionDict where
  connection_config : String
  tmux_session : String
  log_file : String
  created_at : Option String
deriving DecidableEq

/-- state.py `SessionState.to_dict`. -/
def SessionState.to_dict (s : SessionState) : SessionDict :=
  { connection_config := s.connection_config, tmux_session := s.tmux_session,
    log_file := s.log_file, created_at := some s.created_at }

/-- state.py `SessionState.from_dict`. -/
def SessionState.from_dict (now session_name : String) (d : SessionDict) : SessionState :=
  mkSessionState now session_name d.connection_config d.tmux_session d.log_file d.created_at

/-- The durable on-disk document `{version, sessions}` written by
`StateManager._save_state`. -/
structure Snapshot where
  version : String
  sessions : List (String × SessionDict)
deriving DecidableEq

/-- Errors raised as `StateError` in state.py, one constructor per raise
site relevant to the model. -/
inductive StateErr where
  | saveFailed
  | duplicateSession (name : String)
deriving DecidableEq

/-- state.py `StateManager`: the in-memory map plus the durable file
(`none` models an absent state file). -/
structure StateManager where
  sessions : List (String × SessionState)
  disk : Option Snapshot
deriving DecidableEq

/-- The snapshot `_save_state` serialises from an in-memory map. -/
def snapshotOf (sessions : List (String × SessionState)) : Snapshot :=
  { version := "1.0",
    sessions := sessions.map (fun p => (p.1, SessionState.to_dict p.2)) }

/-- state.py `StateManager._save_state`: atomically replaces the on-disk
snapshot; an I/O failure (the `save_fails` oracle) raises `StateError`
and leaves the disk unchanged (the temp file is cleaned up, which the
model need not represent). -/
def StateManager.save_state (m : StateManager) (save_fails : Bool) :
    Except StateErr StateManager :=
  if save_fails then .error .saveFailed
  else .ok { m with disk := some (snapshotOf m.sessions) }

/-- state.py `StateManager.session_exists`. -/
def StateManager.session_exists (m : StateManager) (session_name : String) : Bool :=
  (dictFind session_name m.sessions).isSome

/-- state.py `StateManager.get_session`. -/
def StateManager.get_session (m : StateManager) (session_name : String) :
    Option SessionState :=
  dictFind session_name m.sessions

/-- state.py `StateManager.list_sessions`. -/
def StateManager.list_sessions (m : StateManager) : List SessionState :=
  m.sessions.map Prod.snd

/-- state.py `StateManager.add_session`: duplicate check, insert into the
in-memory dict, then `_save_state`.  On a save failure the exception
propagates after the in-memory insertion already happened. -/
def StateManager.add_session (m : StateManager) (save_fails : Bool) (now : String)
    (session_name connection_config tmux_session log_file : String) :
    Except StateErr Unit × StateManager :=
  if m.session_exists session_name then
    (.error (.duplicateSession session_name), m)
  else
    let s := mkSessionState now session_name connection_config tmux_session log_file none
    let m1 : StateManager := { m with sessions := m.sessions ++ [(session_name, s)] }
    match m1.save_state save_fails with
    | .error e => (.error e, m1)
    | .ok m2 => (.ok (), m2)

/-- state.py `StateManager.remove_session`: delete from the in-memory
dict then `_save_state`; no-op when the name is absent.  On a save
failure the exception propagates after the deletion already happened. -/
def StateManager.remove_session (m : StateManager) (save_fails : Bool)
    (session_name : String) : Except StateErr Unit × StateManager :=
  if m.session_exists session_name then
    let m1 : StateManager := { m with sessions := dictErase session_name m.sessions }
    match m1.save_state save_fails with
    | .error e => (.error e, m1)
    | .ok m2 => (.ok (), m2)
  else (.ok (), m)

/-- state.py `StateManager._load_state` on a fresh manager: an absent
file yields an empty registry (and writes an empty snapshot); otherwise
every stored entry is revived through `SessionState.from_dict`. -/
def StateManager.load (now : String) (disk : Option Snapshot) : StateManager :=
  match disk with
  | none => { sessions := [], disk := some (snapshotOf []) }
  | some snap =>
      { sessions := snap.sessions.map (fun p => (p.1, SessionState.from_dict now p.1 p.2)),
        disk := some snap }

/-- state.py `get_log_file_path`: the per-session log artifact path under
the (expanded) log directory. -/
def get_log_file_path (log_dir session_name : String) : String :=
  log_dir ++ "/" ++ session_name ++ ".log"

/-- config.py `ConnectionConfig` after successful validation. -/
structure ConnectionConfig where
  name : String
  host : String
  user : String
  key_path : String
  port : Nat
  password : Option String
  description : String
deriving DecidableEq

/-- Raw YAML mapping for one connection entry (`config_dict.get` calls in
`ConnectionConfig.__init__`). -/
structure ConfigDict where
  host : Option String
  user : Option String
  key_path : Option String
  port : Option Nat
  password : Option String
  description : Option String
deriving DecidableEq

/-- Errors raised as `ConfigError` in `ConnectionConfig.__init__`. -/
inductive ConfigErr where
  | missingHost (name : String)
  | missingUser (name : String)
  | missingKeyPath (name : String)
  | keyFileNotFound (name key_path : String)
deriving DecidableEq

/-- Python truthiness test used by the required-field validation. -/
def strTruthy : Option String → Bool
  | some s => !(s == "")
  | none => false

/-- config.py `ConnectionConfig.__init__`: field reads with defaults,
required-field validation, tilde expansion of the key path (`ed`) and the
key-file existence check (`fe`, modelling `os.path.exists`). -/
def mkConnectionConfig (ed : String → String) (fe : String → Bool)
    (name : String) (d : ConfigDict) : Except ConfigErr ConnectionConfig :=
  if !(strTruthy d.host) then .error (.missingHost name)
  else if !(strTruthy d.user) then .error (.missingUser name)
  else if !(strTruthy d.key_path) then .error (.missingKeyPath name)
  else if !(fe (ed (d.key_path.getD ""))) then
    .error (.keyFileNotFound name (ed (d.key_path.getD "")))
  else .ok { name := name, host := d.host.getD "", user := d.user.getD "",
             key_path := ed (d.key_path.getD ""), port := d.port.getD 22,
             password := d.password, description := d.description.getD "" }

/-- Redacted summary object built by config.py `ConnectionConfig.to_dict`
(name, host, user, port, description: nothing else is emitted). -/
structure ConfigSummary where
  name : String
  host : String
  user : String
  port : Nat
  description : String
deriving DecidableEq

/-- config.py `ConnectionConfig.to_dict`. -/
def ConnectionConfig.to_dict (c : ConnectionConfig) : ConfigSummary :=
  { name := c.name, host := c.host, user := c.user, port := c.port,
    description := c.description }

/-- config.py `ConfigManager.list_connections`: summaries of the stored
profiles in insertion order. -/
def list_connections_summaries (cfgs : List ConnectionConfig) : List ConfigSummary :=
  cfgs.map ConnectionConfig.to_dict

/-- tools/list_configs.py `list_available_configs`: returns the summary
list (the broad exception handler is unreachable in the pure model). -/
def list_available_configs (cfgs : List ConnectionConfig) : List ConfigSummary :=
  list_connections_summaries cfgs

/-- The tmux process namespace: live session names
(`TmuxWrapper.session_exists` probes it). -/
def tmux_session_exists (t : List String) (session_name : String) : Bool :=
  t.any (fun s => s == session_name)

/-- tmux_wrapper.py `kill_session` effect on the process namespace
(idempotent: absent sessions are left alone without error). -/
def tmuxKill (t : List String) (session_name : String) : List String :=
  t.filter (fun s => !(s == session_name))

/-- ssh_session.py `_build_ssh_command`, kept as the `cmd_parts` list the
source joins with spaces. -/
def sshCmdParts (c : ConnectionConfig) : List String :=
  ["ssh", "-tt"]
    ++ (if c.key_path ≠ "" then ["-i", c.key_path] else [])
    ++ (if c.port ≠ 22 then ["-p", toString c.port] else [])
    ++ [c.user ++ "@" ++ c.host]

/-- ssh_session.py `_build_ssh_command` result string. -/
def build_ssh_command (c : ConnectionConfig) : String :=
  String.intercalate " " (sshCmdParts c)

/-- ssh_session.py session-name validation, `re.match` against
`^[a-zA-Z0-9_-]+$`: a nonempty run of ASCII letters, digits, underscore
or hyphen.  Python's final `$` also matches just before one trailing
newline, so a name consisting of such a run followed by a single
trailing newline is accepted as well. -/
def validSessionName (s : String) : Bool :=
  let cs := if s.toList.getLast? == some '\n' then s.toList.dropLast else s.toList
  !cs.isEmpty && cs.all (fun c => c.isAlphanum || c == '_' || c == '-')

/-- ssh_session.py `error_patterns`: the connection-failure signatures
scanned during verification, in source order. -/
def error_patterns : List String :=
  ["connection refused", "permission denied", "host key verification failed",
   "no route to host", "network is unreachable"]

/-- Python `text.lower()` (characterwise lowercasing; the failure
signatures are plain ASCII). -/
def strLower (s : String) : String :=
  String.mk (s.toList.map Char.toLower)

/-- Auxiliary scan for the substring test: does the needle occur as a
prefix of any suffix of the haystack. -/
def containsAt (needle : List Char) : List Char → Bool
  | [] => needle.isEmpty
  | c :: cs => needle.isPrefixOf (c :: cs) || containsAt needle cs

/-- Python `needle in hay` substring test. -/
def strContains (hay needle : String) : Bool :=
  containsAt needle.toList hay.toList

/-- The `for pattern in error_patterns: if pattern in output_lower` loop:
first matching signature, if any. -/
def firstMatch (hay : String) (pats : List String) : Option String :=
  pats.find? (fun p => strContains hay p)

/-- Errors raised as `SSHSessionError` in ssh_session.py, one constructor
per raise site of `open_connection`. -/
inductive OpenErr where
  | configNotFound (name : String) (available : List String)
  | invalidSessionName (name : String)
  | sessionNameExists (name : String)
  | createFailed
  | historyFailed
  | sshStartFailed
  | loggingFailed
  | verifyFailed
  | connectionFailed (pattern : String)
  | stateUpdateFailed
deriving DecidableEq

/-- Success payload of `open_connection` (`connection_info` sub-dict). -/
structure ConnectionInfo where
  host : String
  user : String
  port : Nat
deriving DecidableEq

/-- Success dict returned by `open_connection`. -/
structure OpenSuccess where
  session_name : String
  message : String
  connection_info : ConnectionInfo
deriving DecidableEq

/-- Mutable world touched by the orchestrator: the state registry and the
tmux process namespace. -/
structure World where
  state : StateManager
  tmux : List String
deriving DecidableEq

/-- Failure oracle for one `open_connection` run: which external call
fails, the text captured during verification, whether the durable write
fails, and the clock used for the record timestamp. -/
structure OpenOracle where
  create_fails : Bool
  history_fails : Bool
  ssh_send_fails : Bool
  logging_fails : Bool
  capture_fails : Bool
  capture_output : String
  save_fails : Bool
  now : String
deriving DecidableEq

/-- ssh_session.py `SSHSessionManager.open_connection`, step for step:
profile lookup, identity validation, conflict check, tmux session
creation, history limit, ssh launch, logging attach, settle delay
(no-op in the model), verification scan, and the durable state commit.
Every failure after creation kills the tmux session before raising. -/
def open_connection (cfg : List (String × ConnectionConfig)) (w : World)
    (o : OpenOracle) (log_dir connection_config_name session_name : String) :
    Except OpenErr OpenSuccess × World :=
  match dictFind connection_config_name cfg with
  | none => (.error (.configNotFound connection_config_name (cfg.map Prod.fst)), w)
  | some conn_config =>
    if !(validSessionName session_name) then
      (.error (.invalidSessionName session_name), w)
    else if w.state.session_exists session_name then
      (.error (.sessionNameExists session_name), w)
    else if o.create_fails then (.error .createFailed, w)
    else if o.history_fails then
      (.error .historyFailed, ⟨w.state, tmuxKill (w.tmux ++ [session_name]) session_name⟩)
    else if o.ssh_send_fails then
      (.error .sshStartFailed, ⟨w.state, tmuxKill (w.tmux ++ [session_name]) session_name⟩)
    else if o.logging_fails then
      (.error .loggingFailed, ⟨w.state, tmuxKill (w.tmux ++ [session_name]) session_name⟩)
    else if o.capture_fails then
      (.error .verifyFailed, ⟨w.state, tmuxKill (w.tmux ++ [session_name]) session_name⟩)
    else
      match firstMatch (strLower o.capture_output) error_patterns with
      | some pattern =>
          (.error (.connectionFailed pattern),
           ⟨w.state, tmuxKill (w.tmux ++ [session_name]) session_name⟩)
      | none =>
        match w.state.add_session o.save_fails o.now session_name
            connection_config_name session_name
            (get_log_file_path log_dir session_name) with
        | (.error _, st1) =>
            (.error .stateUpdateFailed,
             ⟨st1, tmuxKill (w.tmux ++ [session_name]) session_name⟩)
        | (.ok _, st1) =>
            (.ok { session_name := session_name,
                   message := "SSH connection established",
                   connection_info := { host := conn_config.host,
                                        user := conn_config.user,
                                        port := conn_config.port } },
             ⟨st1, w.tmux ++ [session_name]⟩)

/-- ssh_session.py `SSHSessionManager.get_session_status`. -/
def get_session_status (w : World) (session_name : String) : String :=
  if !(w.state.session_exists session_name) then "not_found"
  else if tmux_session_exists w.tmux session_name then "active"
  else "disconnected"

/-- Result dict of tools/execution.py `execute_command_tool`, one
constructor per return site. -/
inductive ExecResult where
  | notFound (session_name : String) (available : List String)
  | notActive (session_name : String)
  | tmuxFailure
  | sent (session_name command : String)
deriving DecidableEq

/-- The boolean `success` field of the returned dict. -/
def ExecResult.success : ExecResult → Bool
  | .sent _ _ => true
  | _ => false

/-- tools/execution.py `execute_command_tool`: registry check, liveness
check, then send.  The returned triple is (result, world after the call,
input lines sent to tmux sessions); the tool never mutates the world. -/
def execute_command_tool (w : World) (send_fails : Bool)
    (session_name command : String) :
    ExecResult × World × List (String × String) :=
  if !(w.state.session_exists session_name) then
    (.notFound session_name (w.state.list_sessions.map SessionState.session_name), w, [])
  else if !(tmux_session_exists w.tmux session_name) then
    (.notActive session_name, w, [])
  else if send_fails then (.tmuxFailure, w, [])
  else (.sent session_name command, w, [(session_name, command)])

/-- Success payload of tools/terminal.py `get_terminal_output_tool`. -/
structure TerminalOutput where
  session_name : String
  output : String
  lines : Nat
deriving DecidableEq

/-- Result dict of `get_terminal_output_tool`, one constructor per
return site. -/
inductive TermResult where
  | notFound (session_name : String)
  | notActive (session_name : String)
  | tmuxFailure
  | ok (t : TerminalOutput)
deriving DecidableEq

/-- Python `text.split(sep)` for a one-character separator: the list of
separator-delimited chunks, never empty ( `[""]` for the empty text). -/
def pySplit (sep : Char) : List Char → List (List Char)
  | [] => [[]]
  | c :: cs =>
    let rest := pySplit sep cs
    if c = sep then [] :: rest
    else (c :: rest.headD []) :: rest.tail

/-- tools/terminal.py `get_terminal_output_tool`: registry check,
liveness check, capture (driven by the oracle), then the line count
`len(output.split(chr(10)))`. -/
def get_terminal_output_tool (w : World) (capture_fails : Bool)
    (capture_output : String) (session_name : String) (num_lines : Nat) :
    TermResult :=
  if !(w.state.session_exists session_name) then .notFound session_name
  else if !(tmux_session_exists w.tmux session_name) then .notActive session_name
  else if capture_fails then .tmuxFailure
  else .ok { session_name := session_name, output := capture_output,
             lines := (pySplit '\n' capture_output.toList).length }

/-! Helper lemmas shared by several results. -/

/-- A session name is live iff it is a member of the tmux namespace. -/
theorem tmux_session_exists_iff (t : List String) (n : String) :
    tmux_session_exists t n = true ↔ n ∈ t := by
  simp [tmux_session_exists, List.any_eq_true, beq_iff_eq]

/-- Killing a tmux session removes it from the live namespace. -/
theorem tmuxKill_not_exists (t : List String) (n : String) :
    tmux_session_exists (tmuxKill t n) n = false := by
  rw [Bool.eq_false_iff]
  intro h
  rw [tmux_session_exists_iff] at h
  simp [tmuxKill, List.mem_filter] at h

/-- Lookup passes over a prefix that does not hold the key. -/
theorem dictFind_append_none {α : Type} (k : String) (l1 l2 : List (String × α))
    (h : dictFind k l1 = none) : dictFind k (l1 ++ l2) = dictFind k l2 := by
  induction l1 with
  | nil => rfl
  | cons p t ih =>
      obtain ⟨k2, v⟩ := p
      by_cases hk : k2 = k
      · simp [dictFind, hk] at h
      · simp only [List.cons_append, dictFind, if_neg hk] at h ⊢
        exact ih h

/-- On a save failure `add_session` raises, keeps the inserted record in
memory and leaves the disk untouched; a successful save syncs the disk. -/
theorem add_session_spec (m : StateManager) (sf : Bool) (now n cc ts lf : String)
    (hex : m.session_exists n = false) :
    m.add_session sf now n cc ts lf =
      (if sf then Except.error StateErr.saveFailed else Except.ok (),
       { sessions := m.sessions ++ [(n, mkSessionState now n cc ts lf none)],
         disk := if sf then m.disk
                 else some (snapshotOf (m.sessions ++ [(n, mkSessionState now n cc ts lf none)])) }) := by
  unfold StateManager.add_session StateManager.save_state
  rw [hex]
  cases sf <;> simp

theorem pySplit_length (sep : Char) (l : List Char) :
    (pySplit sep l).length = l.count sep + 1 := by
  induction l with
  | nil => rfl
  | cons c cs ih =>
      by_cases h : c = sep
      · simp [pySplit, h, List.count_cons, ih]
      · simp [pySplit, h, List.count_cons, List.length_tail, ih]

/-- C1 counterexample part.  On an empty registry with a failing durable
write, `add_session` raises `StateError` but the in-memory session map is
NOT equal to its pre-call value: the new record stays in it. -/
theorem add_session_save_failure_mutates_memory :
    (StateManager.add_session ⟨[], some (snapshotOf [])⟩ true "t0" "s1" "c1" "s1" "l1").1
        = Except.error StateErr.saveFailed ∧
    (StateManager.add_session ⟨[], some (snapshotOf [])⟩ true "t0" "s1" "c1" "s1" "l1").2.sessions
        ≠ (StateManager.mk [] (some (snapshotOf []))).sessions := by
  exact ⟨rfl, by decide⟩

/-- C1 (amended): when the durable snapshot rewrite fails, `add_session`
and `remove_session` raise `StateError` and leave the on-disk snapshot
unchanged, but the in-memory map RETAINS the mutation: after a failed
add the new record is appended, after a failed remove the record is
gone. -/
theorem state_mutation_on_save_failure :
    ∀ (m : StateManager) (now n1 n2 cc ts lf : String),
      dictFind n1 m.sessions = none →
      (dictFind n2 m.sessions).isSome = true →
      ((StateManager.add_session m true now n1 cc ts lf).1
          = Except.error StateErr.saveFailed ∧
       (StateManager.add_session m true now n1 cc ts lf).2.sessions
          = m.sessions ++ [(n1, mkSessionState now n1 cc ts lf none)] ∧
       (StateManager.add_session m true now n1 cc ts lf).2.disk = m.disk) ∧
      ((StateManager.remove_session m true n2).1 = Except.error StateErr.saveFailed ∧
       (StateManager.remove_session m true n2).2.sessions = dictErase n2 m.sessions ∧
       (StateManager.remove_session m true n2).2.disk = m.disk) := by
  intro m now n1 n2 cc ts lf h1 h2
  have hex1 : m.session_exists n1 = false := by
    unfold StateManager.session_exists; rw [h1]; rfl
  have hex2 : m.session_exists n2 = true := by
    unfold StateManager.session_exists; exact h2
  refine ⟨?_, ?_⟩
  · rw [add_session_spec m true now n1 cc ts lf hex1]
    exact ⟨rfl, rfl, rfl⟩
  · unfold StateManager.remove_session StateManager.save_state
    rw [hex2]
    simp

/-- C1 witness: the amended behavior at a concrete registry holding one
session named a, adding b and removing a under a failing write. -/
theorem state_mutation_on_save_failure_witness :
    (StateManager.add_session ⟨[("a", mkSessionState "t" "a" "c" "a" "l" none)], none⟩
        true "t0" "b" "cc" "ts" "lf").1 = Except.error StateErr.saveFailed ∧
    (StateManager.remove_session ⟨[("a", mkSessionState "t" "a" "c" "a" "l" none)], none⟩
        true "a").1 = Except.error StateErr.saveFailed :=
  ⟨((state_mutation_on_save_failure ⟨[("a", mkSessionState "t" "a" "c" "a" "l" none)], none⟩
      "t0" "b" "a" "cc" "ts" "lf" (by decide) (by decide)).1).1,
   ((state_mutation_on_save_failure ⟨[("a", mkSessionState "t" "a" "c" "a" "l" none)], none⟩
      "t0" "b" "a" "cc" "ts" "lf" (by decide) (by decide)).2).1⟩

/-- Lookup of a freshly appended record after serialising every entry
with `to_dict` and reviving with `from_dict`. -/
theorem dictFind_roundtrip (now2 : String) (l : List (String × SessionState))
    (n : String) (h : dictFind n l = none) (s : SessionState) :
    dictFind n (((l ++ [(n, s)]).map (fun p => (p.1, SessionState.to_dict p.2))).map
        (fun p => (p.1, SessionState.from_dict now2 p.1 p.2)))
      = some (SessionState.from_dict now2 n s.to_dict) := by
  induction l with
  | nil => simp [dictFind]
  | cons p t ih =>
      obtain ⟨k2, v⟩ := p
      have hk : k2 ≠ n := by
        intro hh
        simp [dictFind, hh] at h
      simp only [dictFind, if_neg hk] at h
      simp only [List.cons_append, List.map_cons, dictFind, if_neg hk]
      exact ih h

/-- C6: on a registry that does not yet hold the identity, `add_session`
with a working durable write succeeds, and a fresh `load` from the
resulting on-disk snapshot yields a record for that identity equal to the
one added: same profile name, tmux handle, log path and creation
timestamp. -/
theorem add_then_load_roundtrip :
    ∀ (m : StateManager) (now now2 n cc ts lf : String),
      dictFind n m.sessions = none → now ≠ "" →
      (StateManager.add_session m false now n cc ts lf).1 = Except.ok () ∧
      (StateManager.load now2 (StateManager.add_session m false now n cc ts lf).2.disk).get_session n
        = some { session_name := n, connection_config := cc, tmux_session := ts,
                 log_file := lf, created_at := now } := by
  intro m now now2 n cc ts lf h1 h2
  have hex : m.session_exists n = false := by
    unfold StateManager.session_exists; rw [h1]; rfl
  rw [add_session_spec m false now n cc ts lf hex]
  refine ⟨rfl, ?_⟩
  simp only [if_neg (by decide : ¬False), Bool.false_eq_true, if_neg, ite_false]
  unfold StateManager.load StateManager.get_session snapshotOf
  simp only []
  rw [dictFind_roundtrip now2 m.sessions n h1]
  simp [SessionState.from_dict, SessionState.to_dict, mkSessionState, pyOr, h2]

/-- C6 witness: the round trip at a concrete one-entry registry. -/
theorem add_then_load_roundtrip_witness :
    (StateManager.add_session ⟨[("a", mkSessionState "t" "a" "c" "a" "l" none)], none⟩
        false "2024-01-01T00:00:00Z" "b" "cc" "b" "lb").1 = Except.ok () ∧
    (StateManager.load "t2"
        (StateManager.add_session ⟨[("a", mkSessionState "t" "a" "c" "a" "l" none)], none⟩
          false "2024-01-01T00:00:00Z" "b" "cc" "b" "lb").2.disk).get_session "b"
      = some { session_name := "b", connection_config := "cc", tmux_session := "b",
               log_file := "lb", created_at := "2024-01-01T00:00:00Z" } :=
  add_then_load_roundtrip ⟨[("a", mkSessionState "t" "a" "c" "a" "l" none)], none⟩
    "2024-01-01T00:00:00Z" "t2" "b" "cc" "b" "lb" (by decide) (by decide)

/-- C4: the status function realises the reconciliation table: active iff
registered and process alive, disconnected iff registered and process
dead, not_found iff unregistered (whatever the process state); a
disconnected verdict leaves the registry record in place. -/
theorem get_session_status_table :
    ∀ (w : World) (n : String),
      (get_session_status w n = "active" ↔
        w.state.session_exists n = true ∧ tmux_session_exists w.tmux n = true) ∧
      (get_session_status w n = "disconnected" ↔
        w.state.session_exists n = true ∧ tmux_session_exists w.tmux n = false) ∧
      (get_session_status w n = "not_found" ↔ w.state.session_exists n = false) ∧
      (get_session_status w n = "disconnected" → (w.state.get_session n).isSome = true) := by
  intro w n
  have hge : (w.state.get_session n).isSome = w.state.session_exists n := rfl
  cases hs : w.state.session_exists n <;> cases ht : tmux_session_exists w.tmux n <;>
    simp [get_session_status, hs, ht, hge]

/-- C4 witness: the table at a concrete world holding one registered
session whose tmux process is gone. -/
theorem get_session_status_table_witness :
    get_session_status ⟨⟨[("s", mkSessionState "t" "s" "c" "s" "l" none)], none⟩, []⟩ "s"
        = "disconnected" ↔
      (StateManager.mk [("s", mkSessionState "t" "s" "c" "s" "l" none)] none).session_exists "s"
          = true ∧
      tmux_session_exists [] "s" = false :=
  (get_session_status_table ⟨⟨[("s", mkSessionState "t" "s" "c" "s" "l" none)], none⟩, []⟩ "s").2.1

/-- C7: for every profile accepted by the config validation (tilde
expansion `ed` keeps nonempty paths nonempty), the assembled remote-shell
command always carries the forced pseudo-terminal flag and the credential
file, appends the port option exactly when the port differs from 22, and
ends with the user-at-host target. -/
theorem build_ssh_command_shape :
    ∀ (ed : String → String) (fe : String → Bool) (nm : String) (d : ConfigDict)
      (c : ConnectionConfig),
      (∀ s, s ≠ "" → ed s ≠ "") →
      mkConnectionConfig ed fe nm d = Except.ok c →
      sshCmdParts c = ["ssh", "-tt", "-i", c.key_path]
          ++ (if c.port ≠ 22 then ["-p", toString c.port] else [])
          ++ [c.user ++ "@" ++ c.host] := by
  intro ed fe nm d c hed h
  unfold mkConnectionConfig at h
  split at h
  · exact Except.noConfusion h
  split at h
  · exact Except.noConfusion h
  split at h
  · exact Except.noConfusion h
  rename_i hkp0
  split at h
  · exact Except.noConfusion h
  injection h with h1
  subst h1
  have hkp : strTruthy d.key_path = true := by
    revert hkp0
    cases strTruthy d.key_path <;> simp
  have hkp2 : ed (d.key_path.getD "") ≠ "" := by
    cases hdk : d.key_path with
    | none => rw [hdk] at hkp; exact absurd hkp (by decide)
    | some s =>
        rw [hdk] at hkp
        simp [strTruthy] at hkp
        simpa using hed s hkp
  unfold sshCmdParts
  rw [if_pos hkp2]
  simp

/-- C7 witness: the command shape for a concrete profile on port 2222
passing validation with identity tilde expansion. -/
theorem build_ssh_command_shape_witness :
    sshCmdParts ⟨"nm", "h", "u", "k", 2222, none, ""⟩
      = ["ssh", "-tt", "-i", "k"]
          ++ (if (2222 : Nat) ≠ 22 then ["-p", toString (2222 : Nat)] else [])
          ++ ["u" ++ "@" ++ "h"] :=
  build_ssh_command_shape (fun s => s) (fun _ => true) "nm"
    ⟨some "h", some "u", some "k", some 2222, none, none⟩
    ⟨"nm", "h", "u", "k", 2222, none, ""⟩ (fun _ hs => hs) rfl

/-- C8: `execute_command` on a registered identity whose tmux process is
gone fails with the inactive error, leaves the world (in particular the
registry entry) unchanged and sends no input; on an unregistered identity
it fails with the not-found error, again without sending input. -/
theorem execute_command_inactive_behavior :
    ∀ (w : World) (sf : Bool) (n cmd : String),
      (w.state.session_exists n = true → tmux_session_exists w.tmux n = false →
        execute_command_tool w sf n cmd = (ExecResult.notActive n, w, []) ∧
        ExecResult.success (ExecResult.notActive n) = false) ∧
      (w.state.session_exists n = false →
        execute_command_tool w sf n cmd
          = (ExecResult.notFound n (w.state.list_sessions.map SessionState.session_name), w, []) ∧
        ExecResult.success
          (ExecResult.notFound n (w.state.list_sessions.map SessionState.session_name)) = false) := by
  intro w sf n cmd
  refine ⟨fun h1 h2 => ?_, fun h1 => ?_⟩
  · exact ⟨by simp [execute_command_tool, h1, h2], rfl⟩
  · exact ⟨by simp [execute_command_tool, h1], rfl⟩

/-- C8 witness: a registry holding the stale record s1 with an empty tmux
namespace, probed at s1 (inactive) and at zz (not found). -/
theorem execute_command_inactive_behavior_witness :
    execute_command_tool ⟨⟨[("s1", mkSessionState "t" "s1" "c" "s1" "l" none)], none⟩, []⟩
        false "s1" "ls" =
      (ExecResult.notActive "s1",
       ⟨⟨[("s1", mkSessionState "t" "s1" "c" "s1" "l" none)], none⟩, []⟩, []) ∧
    execute_command_tool ⟨⟨[("s1", mkSessionState "t" "s1" "c" "s1" "l" none)], none⟩, []⟩
        false "zz" "ls" =
      (ExecResult.notFound "zz" ["s1"],
       ⟨⟨[("s1", mkSessionState "t" "s1" "c" "s1" "l" none)], none⟩, []⟩, []) :=
  ⟨((execute_command_inactive_behavior
      ⟨⟨[("s1", mkSessionState "t" "s1" "c" "s1" "l" none)], none⟩, []⟩ false "s1" "ls").1
      rfl rfl).1,
   ((execute_command_inactive_behavior
      ⟨⟨[("s1", mkSessionState "t" "s1" "c" "s1" "l" none)], none⟩, []⟩ false "zz" "ls").2
      rfl).1⟩

/-- Profiles that agree on everything except the stored password. -/
def sameExceptPassword (a b : ConnectionConfig) : Prop :=
  a.name = b.name ∧ a.host = b.host ∧ a.user = b.user ∧ a.key_path = b.key_path ∧
  a.port = b.port ∧ a.description = b.description

/-- C9: every summary entry consists of exactly name, host, user, port
and description, and the listing is oblivious to passwords: profile lists
that differ only in their password values produce identical summary
listings. -/
theorem list_configs_password_oblivious :
    ∀ (cs1 cs2 : List ConnectionConfig),
      List.Forall₂ sameExceptPassword cs1 cs2 →
      list_available_configs cs1 = list_available_configs cs2 ∧
      ∀ c ∈ cs1, ConnectionConfig.to_dict c
          = { name := c.name, host := c.host, user := c.user, port := c.port,
              description := c.description } := by
  intro cs1 cs2 h
  constructor
  · induction h with
    | nil => rfl
    | cons hab htail ih =>
        obtain ⟨h1, h2, h3, h4, h5, h6⟩ := hab
        simp only [list_available_configs, list_connections_summaries, List.map_cons] at ih ⊢
        simp [ConnectionConfig.to_dict, h1, h2, h3, h5, h6, ih]
  · intro c _
    rfl

/-- C9 witness: two one-profile stores differing only in the password
yield equal listings. -/
theorem list_configs_password_oblivious_witness :
    list_available_configs [⟨"n", "h", "u", "k", 22, some "pw1", "d"⟩]
      = list_available_configs [⟨"n", "h", "u", "k", 22, some "pw2", "d"⟩] :=
  (list_configs_password_oblivious
    [⟨"n", "h", "u", "k", 22, some "pw1", "d"⟩]
    [⟨"n", "h", "u", "k", 22, some "pw2", "d"⟩]
    (List.Forall₂.cons ⟨rfl, rfl, rfl, rfl, rfl, rfl⟩ List.Forall₂.nil)).1

/-- C10: whenever the terminal-read tool succeeds, the reported line
count equals the number of newline characters in the captured text plus
one, hence is at least 1 even for empty output. -/
theorem terminal_output_line_count :
    ∀ (w : World) (cap sname : String) (nl : Nat) (t : TerminalOutput),
      get_terminal_output_tool w false cap sname nl = TermResult.ok t →
      t.lines = t.output.toList.count '\n' + 1 ∧ 1 ≤ t.lines := by
  intro w cap sname nl t h
  unfold get_terminal_output_tool at h
  split at h
  · exact TermResult.noConfusion h
  split at h
  · exact TermResult.noConfusion h
  split at h
  · exact TermResult.noConfusion h
  injection h with h1
  subst h1
  have hx := pySplit_length '\n' cap.toList
  refine ⟨hx, ?_⟩
  show 1 ≤ (pySplit '\n' cap.toList).length
  omega

/-- C10 witness: an active session whose captured output is empty still
reports one line. -/
theorem terminal_output_line_count_witness :
    (TerminalOutput.mk "s" "" 1).lines
        = (TerminalOutput.mk "s" "" 1).output.toList.count '\n' + 1 ∧
    1 ≤ (TerminalOutput.mk "s" "" 1).lines :=
  terminal_output_line_count
    ⟨⟨[("s", mkSessionState "t" "s" "c" "s" "l" none)], none⟩, ["s"]⟩
    "" "s" 200 ⟨"s", "", 1⟩ rfl

/-- A one-profile store and an empty world used by the concrete runs. -/
def demoCfg : List (String × ConnectionConfig) :=
  [("prof", ⟨"prof", "h", "u", "k", 22, none, ""⟩)]

def demoWorld : World := ⟨⟨[], some (snapshotOf [])⟩, []⟩

/-- C5 counterexample part.  With an unknown profile AND an identity
outside the allowed character set, `open_connection` reports the unknown
profile, not the invalid identity: the profile check runs first. -/
theorem open_checks_profile_before_identity :
    validSessionName "bad name" = false ∧
    (open_connection [] ⟨⟨[], none⟩, []⟩ ⟨false, false, false, false, false, "", false, "t"⟩
        "logs" "nope" "bad name").1
      = Except.error (OpenErr.configNotFound "nope" []) ∧
    (open_connection [] ⟨⟨[], none⟩, []⟩ ⟨false, false, false, false, false, "", false, "t"⟩
        "logs" "nope" "bad name").1
      ≠ Except.error (OpenErr.invalidSessionName "bad name") := by
  refine ⟨by decide, rfl, fun h => ?_⟩
  have h3 : Except.error (α := OpenSuccess) (OpenErr.configNotFound "nope" [])
      = Except.error (OpenErr.invalidSessionName "bad name") := h
  injection h3 with h2
  exact absurd h2 (by decide)

/-- C5 (amended): once the named profile exists, an identity outside the
allowed character set fails with the invalid-identity error and an
unchanged world, regardless of the registry (in particular regardless of
whether the identity is already registered). -/
theorem open_invalid_identity_after_profile_check :
    ∀ (cfg : List (String × ConnectionConfig)) (w : World) (o : OpenOracle)
      (log_dir cname sname : String) (c : ConnectionConfig),
      dictFind cname cfg = some c →
      validSessionName sname = false →
      open_connection cfg w o log_dir cname sname
        = (Except.error (OpenErr.invalidSessionName sname), w) := by
  intro cfg w o log_dir cname sname c h1 h2
  unfold open_connection
  rw [h1]
  simp [h2]

/-- C5 witness: a known profile plus the invalid identity, on a world
that even carries a registry record under that identity. -/
theorem open_invalid_identity_after_profile_check_witness :
    open_connection demoCfg
        ⟨⟨[("bad name", mkSessionState "t" "bad name" "c" "x" "l" none)], none⟩, []⟩
        ⟨false, false, false, false, false, "", false, "t"⟩ "logs" "prof" "bad name"
      = (Except.error (OpenErr.invalidSessionName "bad name"),
         ⟨⟨[("bad name", mkSessionState "t" "bad name" "c" "x" "l" none)], none⟩, []⟩) :=
  open_invalid_identity_after_profile_check demoCfg
    ⟨⟨[("bad name", mkSessionState "t" "bad name" "c" "x" "l" none)], none⟩, []⟩
    ⟨false, false, false, false, false, "", false, "t"⟩ "logs" "prof" "bad name"
    ⟨"prof", "h", "u", "k", 22, none, ""⟩ rfl (by decide)

/-- C3 counterexample part.  A captured output that contains the
signature network unreachable (case-insensitively) is NOT rejected by the
code, whose pattern list holds network is unreachable instead: the open
succeeds and a registry entry is created. -/
theorem open_accepts_network_unreachable_output :
    strContains (strLower "connect to host h port 22: Network unreachable")
        "network unreachable" = true ∧
    (open_connection demoCfg demoWorld
        ⟨false, false, false, false, false,
         "connect to host h port 22: Network unreachable", false, "t0"⟩
        "logs" "prof" "sess1").1
      = Except.ok ⟨"sess1", "SSH connection established", ⟨"h", "u", 22⟩⟩ ∧
    (open_connection demoCfg demoWorld
        ⟨false, false, false, false, false,
         "connect to host h port 22: Network unreachable", false, "t0"⟩
        "logs" "prof" "sess1").2.state.session_exists "sess1" = true :=
  ⟨rfl, rfl, rfl⟩

/-- C3 (amended): during verification the lowercased capture is scanned
against the code's pattern list (whose last entry is network IS
unreachable); when a pattern occurs, open fails naming the first matching
pattern, tears the tmux session down and leaves the registry untouched. -/
theorem open_rejects_on_error_signature :
    ∀ (cfg : List (String × ConnectionConfig)) (w : World) (o : OpenOracle)
      (log_dir cname sname : String) (c : ConnectionConfig) (p : String),
      dictFind cname cfg = some c →
      validSessionName sname = true →
      w.state.session_exists sname = false →
      o.create_fails = false → o.history_fails = false →
      o.ssh_send_fails = false → o.logging_fails = false → o.capture_fails = false →
      firstMatch (strLower o.capture_output) error_patterns = some p →
      (open_connection cfg w o log_dir cname sname).1
          = Except.error (OpenErr.connectionFailed p) ∧
      tmux_session_exists (open_connection cfg w o log_dir cname sname).2.tmux sname = false ∧
      (open_connection cfg w o log_dir cname sname).2.state = w.state := by
  intro cfg w o log_dir cname sname c p h1 h2 h3 h4 h5 h6 h7 h8 h9
  unfold open_connection
  rw [h1]
  simp [h2, h3, h4, h5, h6, h7, h8, h9, tmuxKill_not_exists]

/-- C3 witness: a capture containing Permission denied is rejected with
that first matching signature; no process, no registry entry. -/
theorem open_rejects_on_error_signature_witness :
    (open_connection demoCfg demoWorld
        ⟨false, false, false, false, false,
         "Permission denied, please try again.", false, "t0"⟩
        "logs" "prof" "sess1").1
      = Except.error (OpenErr.connectionFailed "permission denied") ∧
    tmux_session_exists (open_connection demoCfg demoWorld
        ⟨false, false, false, false, false,
         "Permission denied, please try again.", false, "t0"⟩
        "logs" "prof" "sess1").2.tmux "sess1" = false ∧
    (open_connection demoCfg demoWorld
        ⟨false, false, false, false, false,
         "Permission denied, please try again.", false, "t0"⟩
        "logs" "prof" "sess1").2.state = demoWorld.state :=
  open_rejects_on_error_signature demoCfg demoWorld
    ⟨false, false, false, false, false,
     "Permission denied, please try again.", false, "t0"⟩
    "logs" "prof" "sess1" ⟨"prof", "h", "u", "k", 22, none, ""⟩
    "permission denied" rfl rfl rfl rfl rfl rfl rfl rfl (by decide)

/-- C2 counterexample part.  Injecting a failure at the durable-commit
step (step 7): after the call returns with the state-update error, the
tmux process is gone, but the registry still holds a record for the
identity (the in-memory map kept the insertion that could not be saved). -/
theorem open_commit_failure_leaves_registry_record :
    (open_connection demoCfg demoWorld
        ⟨false, false, false, false, false, "Welcome", true, "t0"⟩
        "logs" "prof" "sess1").1 = Except.error OpenErr.stateUpdateFailed ∧
    (open_connection demoCfg demoWorld
        ⟨false, false, false, false, false, "Welcome", true, "t0"⟩
        "logs" "prof" "sess1").2.state.session_exists "sess1" = true ∧
    tmux_session_exists (open_connection demoCfg demoWorld
        ⟨false, false, false, false, false, "Welcome", true, "t0"⟩
        "logs" "prof" "sess1").2.tmux "sess1" = false :=
  ⟨rfl, rfl, rfl⟩

/-- C2 (amended): provided no process for the identity pre-existed,
every failure the open protocol reports leaves no tmux process for the
identity and the durable snapshot unchanged; for every error other than
the durable-commit failure (steps 1 to 6: unknown profile, invalid or
conflicting identity, process allocation, history configuration,
transport launch, logging attachment, verification) the in-memory
registry is also unchanged, while the durable-commit error occurs only
with a failing durable write and leaves exactly the freshly inserted
record in the in-memory map. -/
theorem open_rollback_classification :
    ∀ (cfg : List (String × ConnectionConfig)) (w : World) (o : OpenOracle)
      (log_dir cname sname : String) (e : OpenErr) (w2 : World),
      tmux_session_exists w.tmux sname = false →
      open_connection cfg w o log_dir cname sname = (Except.error e, w2) →
      tmux_session_exists w2.tmux sname = false ∧
      w2.state.disk = w.state.disk ∧
      (e ≠ OpenErr.stateUpdateFailed → w2.state.sessions = w.state.sessions) ∧
      (e = OpenErr.stateUpdateFailed →
        o.save_fails = true ∧
        w2.state.sessions = w.state.sessions ++
          [(sname, mkSessionState o.now sname cname sname
              (get_log_file_path log_dir sname) none)]) := by
  intro cfg w o log_dir cname sname e w2 htmux h
  unfold open_connection at h
  split at h
  · injection h with hres hw
    subst hw
    injection hres with he
    subst he
    exact ⟨htmux, rfl, fun _ => rfl, fun hc => OpenErr.noConfusion hc⟩
  split at h
  · injection h with hres hw
    subst hw
    injection hres with he
    subst he
    exact ⟨htmux, rfl, fun _ => rfl, fun hc => OpenErr.noConfusion hc⟩
  split at h
  · injection h with hres hw
    subst hw
    injection hres with he
    subst he
    exact ⟨htmux, rfl, fun _ => rfl, fun hc => OpenErr.noConfusion hc⟩
  rename_i hne
  split at h
  · injection h with hres hw
    subst hw
    injection hres with he
    subst he
    exact ⟨htmux, rfl, fun _ => rfl, fun hc => OpenErr.noConfusion hc⟩
  split at h
  · injection h with hres hw
    subst hw
    injection hres with he
    subst he
    exact ⟨tmuxKill_not_exists _ _, rfl, fun _ => rfl, fun hc => OpenErr.noConfusion hc⟩
  split at h
  · injection h with hres hw
    subst hw
    injection hres with he
    subst he
    exact ⟨tmuxKill_not_exists _ _, rfl, fun _ => rfl, fun hc => OpenErr.noConfusion hc⟩
  split at h
  · injection h with hres hw
    subst hw
    injection hres with he
    subst he
    exact ⟨tmuxKill_not_exists _ _, rfl, fun _ => rfl, fun hc => OpenErr.noConfusion hc⟩
  split at h
  · injection h with hres hw
    subst hw
    injection hres with he
    subst he
    exact ⟨tmuxKill_not_exists _ _, rfl, fun _ => rfl, fun hc => OpenErr.noConfusion hc⟩
  split at h
  · injection h with hres hw
    subst hw
    injection hres with he
    subst he
    exact ⟨tmuxKill_not_exists _ _, rfl, fun _ => rfl, fun hc => OpenErr.noConfusion hc⟩
  split at h
  · rename_i x st1 heq
    injection h with hres hw
    subst hw
    injection hres with he
    subst he
    have hex : w.state.session_exists sname = false := by
      revert hne
      cases w.state.session_exists sname <;> simp
    rw [add_session_spec w.state o.save_fails o.now sname cname sname
        (get_log_file_path log_dir sname) hex] at heq
    cases hsf : o.save_fails with
    | false =>
        rw [hsf] at heq
        simp at heq
    | true =>
        rw [hsf] at heq
        simp only [if_pos] at heq
        injection heq with he1 he2
        subst he2
        exact ⟨tmuxKill_not_exists _ _, rfl, fun hc => absurd rfl hc, fun _ => ⟨rfl, rfl⟩⟩
  · rename_i x st1 heq
    injection h with hres hw
    exact Except.noConfusion hres

/-- C2 witness: the amended statement at two concrete runs, one failing
while configuring the scrollback history (step 3: full rollback) and one
failing at the durable commit (step 7: record retained in memory). -/
theorem open_rollback_classification_witness :
    (tmux_session_exists demoWorld.tmux "sess1" = false ∧
     demoWorld.state.disk = demoWorld.state.disk ∧
     (OpenErr.historyFailed ≠ OpenErr.stateUpdateFailed →
       demoWorld.state.sessions = demoWorld.state.sessions) ∧
     (OpenErr.historyFailed = OpenErr.stateUpdateFailed →
       (OpenOracle.mk false true false false false "" false "t0").save_fails = true ∧
       demoWorld.state.sessions = demoWorld.state.sessions ++
         [("sess1", mkSessionState "t0" "sess1" "prof" "sess1"
             (get_log_file_path "logs" "sess1") none)])) ∧
    (tmux_session_exists
        (World.mk ⟨[("sess1", mkSessionState "t0" "sess1" "prof" "sess1"
            (get_log_file_path "logs" "sess1") none)], some (snapshotOf [])⟩ []).tmux
        "sess1" = false ∧
     (World.mk ⟨[("sess1", mkSessionState "t0" "sess1" "prof" "sess1"
            (get_log_file_path "logs" "sess1") none)], some (snapshotOf [])⟩ []).state.disk
        = demoWorld.state.disk ∧
     (OpenErr.stateUpdateFailed ≠ OpenErr.stateUpdateFailed →
       (World.mk ⟨[("sess1", mkSessionState "t0" "sess1" "prof" "sess1"
            (get_log_file_path "logs" "sess1") none)], some (snapshotOf [])⟩ []).state.sessions
          = demoWorld.state.sessions) ∧
     (OpenErr.stateUpdateFailed = OpenErr.stateUpdateFailed →
       (OpenOracle.mk false false false false false "Welcome" true "t0").save_fails = true ∧
       (World.mk ⟨[("sess1", mkSessionState "t0" "sess1" "prof" "sess1"
            (get_log_file_path "logs" "sess1") none)], some (snapshotOf [])⟩ []).state.sessions
          = demoWorld.state.sessions ++
            [("sess1", mkSessionState "t0" "sess1" "prof" "sess1"
                (get_log_file_path "logs" "sess1") none)])) :=
  ⟨open_rollback_classification demoCfg demoWorld
     ⟨false, true, false, false, false, "", false, "t0"⟩
     "logs" "prof" "sess1" OpenErr.historyFailed demoWorld rfl rfl,
   open_rollback_classification demoCfg demoWorld
     ⟨false, false, false, false, false, "Welcome", true, "t0"⟩
     "logs" "prof" "sess1" OpenErr.stateUpdateFailed
     (World.mk ⟨[("sess1", mkSessionState "t0" "sess1" "prof" "sess1"
         (get_log_file_path "logs" "sess1") none)], some (snapshotOf [])⟩ [])
     rfl rfl⟩
